import Mathlib

/-!
Verification of the on-call webhook relay bot: a shallow embedding of the
chat router (src/app/models/routing.py), the webhook ingest handler
(src/app/webhooks/handlers.py), the event formatter
(src/app/webhooks/formatters.py), the schedule formatters
(src/app/webhooks/schedule_formatters.py) and the shift-range HTTP endpoint
(src/app/main.py), together with theorems settling the specification claims.

Python values are modelled by the inductive `PyVal`; Python exceptions by
`Except PyErr`; machine-level details (hash randomization, object identity)
are irrelevant to the modelled code paths.
-/

/-- A Python value as it can occur in a decoded JSON payload or in the
glue code of the bot: None, bool, int, str, list, dict (string keys,
association list, first binding wins on lookup). -/
inductive PyVal where
  | none : PyVal
  | bool : Bool → PyVal
  | int : Int → PyVal
  | str : String → PyVal
  | list : List PyVal → PyVal
  | dict : List (String × PyVal) → PyVal

/-- A Python exception, carrying a message.  `unboundLocal` models
`UnboundLocalError` (a `NameError`), raised when a local variable is read
before assignment. -/
inductive PyErr where
  | attributeError : String → PyErr
  | typeError : String → PyErr
  | valueError : String → PyErr
  | unboundLocal : String → PyErr
deriving DecidableEq

/-- Python truthiness: None, False, 0, "", [], and an empty dict are falsy. -/
def truthy : PyVal → Bool
  | PyVal.none => false
  | PyVal.bool b => b
  | PyVal.int n => n != 0
  | PyVal.str s => s ≠ ""
  | PyVal.list l => !l.isEmpty
  | PyVal.dict m => !m.isEmpty

/-- First binding for a key in an association list (Python dicts have unique
keys, so first-match lookup is the dict lookup). -/
def pyLookup : List (String × PyVal) → String → Option PyVal
  | [], _ => Option.none
  | (k', v) :: rest, k => if k' = k then some v else pyLookup rest k

/-- `d.get(k)` on a dict that is already known to be a dict: the value if the
key is present, Python None otherwise. -/
def dGet (m : List (String × PyVal)) (k : String) : PyVal :=
  match pyLookup m k with
  | some v => v
  | Option.none => PyVal.none

/-- `d.get(k, default)` on a known dict: default only when the key is absent. -/
def dGetD (m : List (String × PyVal)) (k : String) (d : PyVal) : PyVal :=
  match pyLookup m k with
  | some v => v
  | Option.none => d

/-- `v.get(k)` on an arbitrary value: AttributeError unless `v` is a dict. -/
def pyGet (v : PyVal) (k : String) : Except PyErr PyVal :=
  match v with
  | PyVal.dict m => Except.ok (dGet m k)
  | _ => Except.error (PyErr.attributeError "object has no attribute get")

/-- `v.get(k, default)` on an arbitrary value. -/
def pyGetD (v : PyVal) (k : String) (d : PyVal) : Except PyErr PyVal :=
  match v with
  | PyVal.dict m => Except.ok (dGetD m k d)
  | _ => Except.error (PyErr.attributeError "object has no attribute get")

/-- Python `a or b`: `a` when truthy, else `b` (both already evaluated). -/
def orV (a b : PyVal) : PyVal :=
  if truthy a then a else b

/-- Hashability: list and dict values are unhashable in Python. -/
def pyHashable : PyVal → Bool
  | PyVal.list _ => false
  | PyVal.dict _ => false
  | _ => true

/-! ## Chat router (src/app/models/routing.py, ChatRouter) -/

/-- The first step of `get_chat_id`: `(event_data.get("alert_group") or {})`,
then `team_id = alert_group.get("team_id")` when that is a dict. -/
def agTeamOf (m : List (String × PyVal)) : PyVal :=
  match orV (dGet m "alert_group") (PyVal.dict []) with
  | PyVal.dict am => dGet am "team_id"
  | _ => PyVal.none

/-- The third step of `get_chat_id`: `(event_data.get("schedule") or {})`,
then `schedule.get("team_id")` when that is a dict. -/
def schedTeamOf (m : List (String × PyVal)) : PyVal :=
  match orV (dGet m "schedule") (PyVal.dict []) with
  | PyVal.dict sm => dGet sm "team_id"
  | _ => PyVal.none

/-- Team-id extraction of `ChatRouter.get_chat_id` (routing.py lines 57-73):
`alert_group.team_id`, else top-level `team_id`, else `schedule.team_id`,
each step taken only when the previous one produced a falsy value. -/
def extractTeamId (m : List (String × PyVal)) : PyVal :=
  let t1 := agTeamOf m
  let t2 := if truthy t1 then t1 else dGet m "team_id"
  if truthy t2 then t2 else schedTeamOf m

/-- `team_id in self.routing_config`: membership test in a dict with string
keys.  Hashing an unhashable value raises TypeError; a hashable non-string
value is simply not among the string keys. -/
def cfgContains (cfg : List (String × String)) (t : PyVal) : Except PyErr Bool :=
  match t with
  | PyVal.list _ => Except.error (PyErr.typeError "unhashable type: list")
  | PyVal.dict _ => Except.error (PyErr.typeError "unhashable type: dict")
  | PyVal.str s => Except.ok (List.lookup s cfg).isSome
  | _ => Except.ok false

/-- `if self.fallback_chat_id: return self.fallback_chat_id; return None`:
the fallback is returned only when it is a truthy (non-empty) string. -/
def fallbackOf (fb : Option String) : Option String :=
  match fb with
  | some s => if s = "" then Option.none else some s
  | Option.none => Option.none

/-- `ChatRouter.get_chat_id` (routing.py lines 42-99).  `cfg` is
`routing_config`, `fb` is `fallback_chat_id`.  Calling `.get` on a non-dict
event raises AttributeError. -/
def getChatId (cfg : List (String × String)) (fb : Option String)
    (eventData : PyVal) : Except PyErr (Option String) :=
  match eventData with
  | PyVal.dict m =>
    if truthy (extractTeamId m) then
      match cfgContains cfg (extractTeamId m) with
      | Except.error e => Except.error e
      | Except.ok true =>
        match extractTeamId m with
        | PyVal.str s => Except.ok (List.lookup s cfg)
        | _ => Except.ok (fallbackOf fb)
      | Except.ok false => Except.ok (fallbackOf fb)
    else
      Except.ok (fallbackOf fb)
  | _ => Except.error (PyErr.attributeError "object has no attribute get")

/-! ## UUID validation (`ChatRouter.validate_chat_id`, via `uuid.UUID`) -/

/-- Bool prefix test on char lists. -/
def lPre : List Char → List Char → Bool
  | [], _ => true
  | _ :: _, [] => false
  | a :: as, b :: bs => a = b && lPre as bs

/-- Remove every occurrence of a non-empty pattern, scanning left to right
without overlap, as Python `str.replace(pat, "")` does.  Fueled by the
input length (each step consumes at least one character). -/
def removeSubGo (pat : List Char) : Nat → List Char → List Char
  | 0, _ => []
  | _ + 1, [] => []
  | n + 1, c :: cs =>
    if lPre pat (c :: cs) then
      removeSubGo pat n (List.drop (pat.length - 1) cs)
    else
      c :: removeSubGo pat n cs

def removeSub (pat : List Char) (cs : List Char) : List Char :=
  removeSubGo pat cs.length cs

/-- Python `str.strip("{}")`: drop any leading and trailing braces. -/
def stripBraces (cs : List Char) : List Char :=
  let isBrace : Char → Bool := fun c => c = '\x7b' || c = '\x7d'
  ((cs.dropWhile isBrace).reverse.dropWhile isBrace).reverse

def isHexDigitChar (c : Char) : Bool :=
  c.isDigit || ('a' ≤ c && c ≤ 'f') || ('A' ≤ c && c ≤ 'F')

/-- The string normalisation done by `uuid.UUID(hex=...)`: remove `urn:` and
`uuid:`, strip braces, remove dashes, then require exactly 32 hex digits.
(Exotic `int()` digit separators are not modelled; the modelled code never
produces them.) -/
def pyUUIDValid (s : String) : Bool :=
  let h := (stripBraces (removeSub "uuid:".data (removeSub "urn:".data s.data))).filter
    (fun c => c ≠ '-')
  h.length = 32 && h.all isHexDigitChar

/-- `ChatRouter.validate_chat_id`: true iff `UUID(chat_id)` succeeds
(ValueError and TypeError are caught and give false). -/
def validateChatId (chatId : String) : Bool :=
  pyUUIDValid chatId

/-! ## Python string conversion, `str()` and `repr()` -/

mutual

/-- Python `repr` of a value (used when a list or dict is interpolated). -/
def pyRepr : PyVal → String
  | PyVal.none => "None"
  | PyVal.bool b => if b then "True" else "False"
  | PyVal.int n => toString n
  | PyVal.str s => (Char.ofNat 39).toString ++ s ++ (Char.ofNat 39).toString
  | PyVal.list l => "[" ++ pyReprList l ++ "]"
  | PyVal.dict m => "\x7b" ++ pyReprDict m ++ "\x7d"

def pyReprList : List PyVal → String
  | [] => ""
  | [v] => pyRepr v
  | v :: rest => pyRepr v ++ ", " ++ pyReprList rest

def pyReprDict : List (String × PyVal) → String
  | [] => ""
  | [(k, v)] => pyRepr (PyVal.str k) ++ ": " ++ pyRepr v
  | (k, v) :: rest => pyRepr (PyVal.str k) ++ ": " ++ pyRepr v ++ ", " ++ pyReprDict rest

end

/-- Python `str()` as used by f-string interpolation. -/
def pyStr : PyVal → String
  | PyVal.str s => s
  | v => pyRepr v

/-- `v.lower()`: AttributeError unless `v` is a string (ASCII lowering, all
modelled tags are ASCII). -/
def pyLower (v : PyVal) : Except PyErr String :=
  match v with
  | PyVal.str s => Except.ok (String.mk (s.data.map Char.toLower))
  | _ => Except.error (PyErr.attributeError "object has no attribute lower")

/-- Python `str.capitalize`: first character upper-cased, rest lower-cased. -/
def pyCapitalize (s : String) : String :=
  match s.data with
  | [] => ""
  | c :: cs => String.mk (Char.toUpper c :: cs.map Char.toLower)

/-- Python `len()`: defined for str, list and dict; TypeError otherwise. -/
def pyLen (v : PyVal) : Except PyErr Nat :=
  match v with
  | PyVal.str s => Except.ok s.length
  | PyVal.list l => Except.ok l.length
  | PyVal.dict m => Except.ok m.length
  | _ => Except.error (PyErr.typeError "object has no len")

/-! ## `datetime.fromisoformat` and `strftime` (timestamp rendering) -/

/-- A parsed datetime: calendar fields plus an optional UTC offset in
minutes (None for a naive datetime). -/
structure PyDateTime where
  year : Nat
  month : Nat
  day : Nat
  hour : Nat
  minute : Nat
  second : Nat
  offsetMin : Option Int
deriving DecidableEq

def digitVal (c : Char) : Option Nat :=
  if c.isDigit then some (c.toNat - 48) else Option.none

def parse2 : List Char → Option (Nat × List Char)
  | a :: b :: rest =>
    match digitVal a, digitVal b with
    | some x, some y => some (10 * x + y, rest)
    | _, _ => Option.none
  | _ => Option.none

def parse4 : List Char → Option (Nat × List Char)
  | a :: b :: c :: d :: rest =>
    match digitVal a, digitVal b, digitVal c, digitVal d with
    | some w, some x, some y, some z => some (1000 * w + 100 * x + 10 * y + z, rest)
    | _, _, _, _ => Option.none
  | _ => Option.none

/-- `YYYY-MM-DD` (the first ten characters handed to
`_parse_isoformat_date`). -/
def parseIsoDate (cs : List Char) : Option (Nat × Nat × Nat × List Char) :=
  match parse4 cs with
  | some (y, '-' :: r1) =>
    match parse2 r1 with
    | some (mo, '-' :: r2) =>
      match parse2 r2 with
      | some (d, r3) => some (y, mo, d, r3)
      | _ => Option.none
    | _ => Option.none
  | _ => Option.none

/-- `_parse_hh_mm_ss_ff`: `HH`, `HH:MM`, `HH:MM:SS`, or `HH:MM:SS.fff` /
`.ffffff` (fraction exactly 3 or 6 digits, discarded here). -/
def parseHMSF (cs : List Char) : Option (Nat × Nat × Nat) :=
  match parse2 cs with
  | some (h, []) => some (h, 0, 0)
  | some (h, ':' :: r1) =>
    match parse2 r1 with
    | some (m, []) => some (h, m, 0)
    | some (m, ':' :: r2) =>
      match parse2 r2 with
      | some (s, []) => some (h, m, s)
      | some (s, '.' :: frac) =>
        if (frac.length = 3 || frac.length = 6) && frac.all Char.isDigit then
          some (h, m, s)
        else Option.none
      | _ => Option.none
    | _ => Option.none
  | _ => Option.none

/-- Index of the first occurrence of `c`, if any. -/
def findIdx? (c : Char) : List Char → Option Nat
  | [] => Option.none
  | a :: as =>
    if a = c then some 0
    else match findIdx? c as with
      | some i => some (i + 1)
      | Option.none => Option.none

def isLeap (y : Nat) : Bool :=
  y % 4 = 0 && (y % 100 ≠ 0 || y % 400 = 0)

def daysInMonth (y m : Nat) : Nat :=
  if m = 2 then (if isLeap y then 29 else 28)
  else if m = 4 || m = 6 || m = 9 || m = 11 then 30
  else 31

/-- `_parse_isoformat_time`: split a trailing `±HH:MM[...]` offset (first
dash wins over first plus, the offset text must be 5, 8 or 15 characters),
parse the remaining clock part. -/
def parseIsoTime (cs : List Char) : Option (Nat × Nat × Nat × Option Int) :=
  let tzSplit : Option Nat :=
    match findIdx? '-' cs with
    | some i => some i
    | Option.none => findIdx? '+' cs
  match tzSplit with
  | Option.none =>
    match parseHMSF cs with
    | some (h, m, s) => some (h, m, s, Option.none)
    | Option.none => Option.none
  | some i =>
    let timecs := cs.take i
    let sign : Int := if cs.get? i = some '-' then -1 else 1
    let tzcs := cs.drop (i + 1)
    match parseHMSF timecs with
    | some (h, m, s) =>
      if tzcs.length = 5 || tzcs.length = 8 || tzcs.length = 15 then
        match parseHMSF tzcs with
        | some (th, tm, ts) =>
          if th * 3600 + tm * 60 + ts < 86400 then
            some (h, m, s, some (sign * (th * 60 + tm)))
          else Option.none
        | Option.none => Option.none
      else Option.none
    | Option.none => Option.none

/-- `datetime.fromisoformat`: `YYYY-MM-DD` alone, or followed by one
separator character (any character) and a time with optional offset; the
resulting fields are range-checked as the `datetime` constructor does. -/
def pyFromIso (s : String) : Option PyDateTime :=
  match parseIsoDate s.data with
  | some (y, mo, d, rest) =>
    let timePart : Option (Nat × Nat × Nat × Option Int) :=
      match rest with
      | [] => some (0, 0, 0, Option.none)
      | _ :: tcs => parseIsoTime tcs
    match timePart with
    | some (h, mi, sec, off) =>
      if 1 ≤ y && y ≤ 9999 && 1 ≤ mo && mo ≤ 12 && 1 ≤ d && d ≤ daysInMonth y mo
          && h ≤ 23 && mi ≤ 59 && sec ≤ 59 then
        some ⟨y, mo, d, h, mi, sec, off⟩
      else Option.none
    | Option.none => Option.none
  | Option.none => Option.none

def pad2 (n : Nat) : String :=
  if n < 10 then "0" ++ toString n else toString n

/-- `dt.strftime("%H:%M:%S %d.%m.%y")`: the wall-clock fields of the
datetime itself; the offset carried by the value is not consulted. -/
def strftimeHMS (d : PyDateTime) : String :=
  pad2 d.hour ++ ":" ++ pad2 d.minute ++ ":" ++ pad2 d.second ++ " "
    ++ pad2 d.day ++ "." ++ pad2 d.month ++ "." ++ pad2 (d.year % 100)

/-- `ts.replace("Z", "+00:00")` on the character list. -/
def replZChars : List Char → List Char
  | [] => []
  | c :: cs =>
    if c = 'Z' then '+' :: '0' :: '0' :: ':' :: '0' :: '0' :: replZChars cs
    else c :: replZChars cs

def replZ (s : String) : String :=
  String.mk (replZChars s.data)

/-- `_fmt_ts` on a truthy string: parse the Z-normalised text, render
`HH:MM:SS DD.MM.YY`; on any parse failure return the raw string
(the `except` clause of `_fmt_ts`). -/
def fmtTsStr (s : String) : String :=
  match pyFromIso (replZ s) with
  | some dt => strftimeHMS dt
  | Option.none => s

/-- `_fmt_ts` (formatters.py lines 91-100) on an arbitrary value: None when
falsy; a rendered-or-raw string for strings; for a truthy non-string the
AttributeError from `.replace` is caught and the value itself returned. -/
def fmtTs (v : PyVal) : PyVal :=
  if truthy v then
    match v with
    | PyVal.str s => PyVal.str (fmtTsStr s)
    | _ => v
  else PyVal.none

/-! ## Webhook ingest handler (src/app/webhooks/handlers.py) -/

/-- The JSON response of the ingest handler plus whether a background
delivery task was spawned (`asyncio.create_task`, fire-and-forget: the
response is produced before any delivery happens). -/
structure WebhookResponse where
  status : Nat
  body : List (String × String)
  deliverySpawned : Bool
deriving DecidableEq

/-- The part of `handle_oncall_webhook` that runs inside the outer `try`
after the alert_group check: field accesses for logging, routing, UUID
validation, then either an error response or task spawn + 202. -/
def handlerCore (cfg : List (String × String)) (fb : Option String)
    (m : List (String × PyVal)) : Except PyErr WebhookResponse := do
  let _eventType ← pyGetD (dGetD m "event" (PyVal.dict [])) "type" (PyVal.str "unknown")
  let _alertGroupId ← pyGetD (dGetD m "alert_group" (PyVal.dict [])) "id" (PyVal.str "unknown")
  let target ← getChatId cfg fb (PyVal.dict m)
  match target with
  | Option.none => do
    let _integName ← pyGet (dGetD m "integration" (PyVal.dict [])) "name"
    pure ⟨500, [("status", "error"),
      ("message", "Cannot determine target chat (no routing configuration or fallback)")], false⟩
  | some chatId =>
    if !validateChatId chatId then
      pure ⟨500, [("status", "error"), ("message", "Invalid target chat_id")], false⟩
    else do
      let _integName ← pyGet (dGetD m "integration" (PyVal.dict [])) "name"
      pure ⟨202, [("status", "accepted"), ("message", "Event is being processed")], true⟩

/-- `handle_oncall_webhook` (handlers.py lines 38-119).  `body` is the result
of JSON-decoding the request body (`Option.none` = undecodable).  The outer
`except Exception` turns any uncaught exception into a 500. -/
def handleOncallWebhook (cfg : List (String × String)) (fb : Option String)
    (body : Option PyVal) : WebhookResponse :=
  match body with
  | Option.none => ⟨400, [("status", "error"), ("detail", "Invalid JSON")], false⟩
  | some (PyVal.dict m) =>
    if !truthy (dGet m "alert_group") then
      ⟨400, [("status", "error"), ("message", "Missing alert_group")], false⟩
    else
      match handlerCore cfg fb m with
      | Except.ok r => r
      | Except.error _ => ⟨500, [("status", "error"), ("detail", "internal error")], false⟩
  | some _ => ⟨400, [("status", "error"), ("detail", "Invalid payload")], false⟩

/-! ## Event formatter (src/app/webhooks/formatters.py,
`format_oncall_webhook_message`) -/

/-- The two settings the formatter reads for link building. -/
structure FmtSettings where
  extGrafanaUrl : Option String
  grafanaOncallUrl : Option String

/-- `a or d` for optional strings (`getattr(settings, ...) or ...`). -/
def orStr (a : Option String) (d : String) : String :=
  match a with
  | some s => if s = "" then d else s
  | Option.none => d

/-- The `status_map` literal of the formatter. -/
def statusMapF (k : String) : Option (String × String) :=
  if k = "escalation" then some ("🚨", "Escalation")
  else if k = "acknowledge" then some ("🟡", "Acknowledged")
  else if k = "acknowledged" then some ("🟡", "Acknowledged")
  else if k = "unacknowledge" then some ("⚪️", "Unacknowledged")
  else if k = "unresolve" then some ("🔴", "Reopened")
  else if k = "resolve" then some ("🟢", "Resolved")
  else if k = "resolved" then some ("🟢", "Resolved")
  else if k = "silence" then some ("🔕", "Silenced")
  else if k = "unsilence" then some ("🔔", "Unsilenced")
  else if k = "firing" then some ("🚨", "Firing")
  else Option.none

/-- Emoji and status text: the map at `event_type`, else at `state`, else
the question-mark fallback with a capitalized raw tag. -/
def statusPair (eventType state : String) : String × String :=
  match statusMapF eventType with
  | some p => p
  | Option.none =>
    match statusMapF state with
    | some p => p
    | Option.none =>
      ("❓", pyCapitalize (if eventType ≠ "" then eventType
        else if state ≠ "" then state else "Event"))

/-- All values the formatter computes before assembling its lines
(the local variables of `format_oncall_webhook_message`). -/
structure FmtCtx where
  eventType : String
  state : String
  groupId : PyVal
  title : PyVal
  summary : PyVal
  startTime : PyVal
  resolvedTime : PyVal
  silenceSt : PyVal
  silenceUntil : PyVal
  alertsCount : PyVal
  numFiring : PyVal
  numResolved : PyVal
  groupLabels : List (String × PyVal)
  commonLabels : List (String × PyVal)
  anns : List (String × PyVal)
  username : PyVal
  currentUrl : String
  allUrl : String

/-- The value-computing part of `format_oncall_webhook_message`
(formatters.py lines 13-100), with every `.get` on a possibly non-dict
value raising through the `Except` monad exactly where Python would. -/
def mkCtx (st : FmtSettings) (eventData : PyVal) : Except PyErr FmtCtx := do
  let alertGroup ← pyGetD eventData "alert_group" (PyVal.dict [])
  let alertPayload ← pyGetD eventData "alert_payload" (PyVal.dict [])
  let event ← pyGetD eventData "event" (PyVal.dict [])
  let rawUser ← pyGet eventData "user"
  let user : List (String × PyVal) :=
    match rawUser with
    | PyVal.dict um => if um.isEmpty then [] else um
    | _ => []
  let agTeam ← pyGet alertGroup "team_id"
  let teamId ← if truthy agTeam then pure agTeam else pyGet eventData "team_id"
  let groupId ← pyGetD alertGroup "id" (PyVal.str "N/A")
  let alertsV ← pyGet alertPayload "alerts"
  let an1 ← match alertsV with
    | PyVal.list (a0 :: _) => do
      let labels ← pyGetD a0 "labels" (PyVal.dict [])
      pyGet labels "alertname"
    | _ => pure PyVal.none
  let an2 ← if truthy an1 then pure an1 else do
    let gl ← pyGet alertPayload "groupLabels"
    pyGet (orV gl (PyVal.dict [])) "alertname"
  let an3 ← if truthy an2 then pure an2 else do
    let cl ← pyGet alertPayload "commonLabels"
    pyGet (orV cl (PyVal.dict [])) "alertname"
  let alertname ← if truthy an3 then pure an3 else do
    let ti ← pyGet alertGroup "title"
    if truthy ti then pure ti else do
      let nm ← pyGet alertGroup "name"
      pure (orV nm (PyVal.str ""))
  let stV ← pyGet alertGroup "state"
  let stV2 ← if truthy stV then pure stV else pyGet event "type"
  let state ← pyLower (orV stV2 (PyVal.str ""))
  let etV ← pyGet event "type"
  let eventType ← pyLower (orV etV (PyVal.str state))
  let eventM : List (String × PyVal) :=
    match event with
    | PyVal.dict em => em
    | _ => []
  let agM : List (String × PyVal) :=
    match alertGroup with
    | PyVal.dict am => am
    | _ => []
  let summary1 ← match alertsV with
    | PyVal.list (a0 :: _) => do
      let ann0 ← pyGetD a0 "annotations" (PyVal.dict [])
      let s ← pyGet (orV ann0 (PyVal.dict [])) "summary"
      pure (orV s (PyVal.str ""))
    | _ => pure (PyVal.str "")
  let summary ← if truthy summary1 then pure summary1 else do
    let ca ← pyGet alertPayload "commonAnnotations"
    let s ← pyGet (orV ca (PyVal.dict [])) "summary"
    pure (orV s (PyVal.str ""))
  let ac1 ← pyGet alertGroup "alerts_count"
  let alertsCount ← if truthy ac1 then pure ac1 else do
    let nf0 ← pyGet alertPayload "numFiring"
    if truthy nf0 then pure nf0 else do
      let al ← pyGetD alertPayload "alerts" (PyVal.list [])
      let n ← pyLen al
      pure (PyVal.int n)
  let nfV ← pyGet alertPayload "numFiring"
  let numFiring := orV nfV (PyVal.int 0)
  let nrV ← pyGet alertPayload "numResolved"
  let numResolved := orV nrV (PyVal.int 0)
  let glr1 ← pyGet alertPayload "groupLabels"
  let glr ← if truthy glr1 then pure glr1 else do
    let l ← pyGet alertGroup "labels"
    pure (orV l (PyVal.dict []))
  let groupLabels : List (String × PyVal) :=
    match glr with
    | PyVal.dict gm => gm
    | _ => []
  let clr ← pyGet alertPayload "commonLabels"
  let commonLabels : List (String × PyVal) :=
    match orV clr (PyVal.dict []) with
    | PyVal.dict cm => cm
    | _ => []
  let anr ← pyGet alertPayload "commonAnnotations"
  let anns : List (String × PyVal) :=
    match orV anr (PyVal.dict []) with
    | PyVal.dict am2 => am2
    | _ => []
  let username := orV (dGet user "username") (orV (dGet user "email") (PyVal.str ""))
  let baseUrl := orStr st.extGrafanaUrl (orStr st.grafanaOncallUrl "")
  let currentUrl := if baseUrl ≠ "" then
    baseUrl ++ "a/grafana-oncall-app/alert-groups/" ++ pyStr groupId else ""
  let allUrl := if baseUrl ≠ "" then
    baseUrl ++ "a/grafana-oncall-app/alert-groups?status=0&status=1&started_at=now-30d_now&team="
      ++ pyStr teamId else ""
  let caV ← pyGet alertGroup "created_at"
  let startTime ← if truthy caV then pure caV else
    match alertsV with
    | PyVal.list (a0 :: _) => pyGet a0 "startsAt"
    | _ => pure PyVal.none
  let raV ← pyGet alertGroup "resolved_at"
  let resolvedTime := if truthy raV then raV else PyVal.none
  let silenceSt := orV (dGet eventM "time") (orV (dGet agM "silenced_at") startTime)
  let silenceUntil := dGet eventM "until"
  pure ⟨eventType, state, groupId, alertname, summary, startTime, resolvedTime,
    silenceSt, silenceUntil, alertsCount, numFiring, numResolved,
    groupLabels, commonLabels, anns, username, currentUrl, allUrl⟩

/-- The title and status lines (formatters.py lines 103-106). -/
def headerBlock (c : FmtCtx) : List String :=
  [(statusPair c.eventType c.state).1 ++ " #" ++ pyStr c.groupId ++ " - " ++ pyStr c.title
      ++ (if truthy c.summary then " (" ++ pyStr c.summary ++ ")" else ""),
    "Status: " ++ (statusPair c.eventType c.state).2]

/-- The event-type-gated Start/Resolve lines (formatters.py lines 107-124). -/
def timeBlock (c : FmtCtx) : List String :=
  if c.eventType = "escalation" && truthy c.startTime then
    ["Start: " ++ pyStr (fmtTs c.startTime)]
  else if c.eventType = "resolve" || c.eventType = "resolved" then
    (if truthy c.startTime then ["Start: " ++ pyStr (fmtTs c.startTime)] else [])
      ++ (if truthy c.resolvedTime then ["Resolve: " ++ pyStr (fmtTs c.resolvedTime)] else [])
  else if c.eventType = "silence" then
    (if truthy c.silenceSt then ["Start: " ++ pyStr (fmtTs c.silenceSt)] else [])
      ++ (if truthy c.silenceUntil then ["Resolve: " ++ pyStr (fmtTs c.silenceUntil)] else [])
  else []

/-- The escalation-only counts line and label blocks (lines 125-136). -/
def escBlock (c : FmtCtx) : List String :=
  if c.eventType = "escalation" then
    ["Alerts in group: " ++ pyStr c.alertsCount ++ " | Firing: " ++ pyStr c.numFiring
        ++ " | Resolved: " ++ pyStr c.numResolved]
      ++ (if c.groupLabels.isEmpty then [] else
        ["", "Group Labels:"] ++ c.groupLabels.map (fun kv => "  - " ++ kv.1 ++ ": " ++ pyStr kv.2))
      ++ (if c.commonLabels.isEmpty then [] else
        ["", "Common Labels:"] ++ c.commonLabels.map (fun kv => "  - " ++ kv.1 ++ ": " ++ pyStr kv.2))
  else []

/-- The annotations block (lines 137-140). -/
def annBlock (c : FmtCtx) : List String :=
  if c.anns.isEmpty then [] else
    "Annotations:" :: c.anns.map (fun kv => " - " ++ kv.1 ++ ": \"" ++ pyStr kv.2 ++ "\"")

/-- The event types that get a `By:` line (line 141). -/
def byEvents : List String :=
  ["acknowledge", "acknowledged", "resolve", "resolved", "unacknowledge",
    "unresolve", "silence", "unsilence"]

/-- The `By: <username>` block (lines 141-143). -/
def byBlock (c : FmtCtx) : List String :=
  if byEvents.contains c.eventType then ["", "By: " ++ pyStr c.username] else []

/-- The trailing blank line and deep links (lines 144-148). -/
def tailBlock (c : FmtCtx) : List String :=
  [""]
    ++ (if c.currentUrl ≠ "" then ["[View current alert group](" ++ c.currentUrl ++ ")"] else [])
    ++ (if c.allUrl ≠ "" then ["[View all alert group](" ++ c.allUrl ++ ")"] else [])

/-- The full `lines` list of the formatter (lines 103-148). -/
def buildLines (c : FmtCtx) : List String :=
  headerBlock c ++ timeBlock c ++ escBlock c ++ annBlock c ++ byBlock c ++ tailBlock c

/-- `format_oncall_webhook_message`: compute the values, assemble the lines,
join with newlines; any exception propagates to the caller. -/
def formatOncallWebhookMessage (st : FmtSettings) (eventData : PyVal) :
    Except PyErr String :=
  (mkCtx st eventData).map (fun c => String.intercalate "\n" (buildLines c))

/-- `str(e)` for a modelled exception. -/
def errText : PyErr → String
  | PyErr.attributeError m => m
  | PyErr.typeError m => m
  | PyErr.valueError m => m
  | PyErr.unboundLocal m => m

/-- `parse_oncall_event` (handlers.py lines 148-154): the formatter behind a
catch-all that degrades to an explanatory placeholder string. -/
def parseOncallEvent (st : FmtSettings) (eventData : PyVal) : String :=
  match formatOncallWebhookMessage st eventData with
  | Except.ok s => s
  | Except.error e => "❌ Error processing alert: " ++ errText e

/-! ## Schedule formatters (src/app/webhooks/schedule_formatters.py) -/

/-- The name resolution inside `format_oncall_person` for a truthy dict:
`person.get("name") or person.get("user_email") or person.get("user_username")
or "Unknown"`. -/
def personName (pm : List (String × PyVal)) : PyVal :=
  orV (dGet pm "name") (orV (dGet pm "user_email") (orV (dGet pm "user_username")
    (PyVal.str "Unknown")))

/-- The username resolution inside `format_oncall_person`:
`person.get("username") or person.get("user_username") or ""`. -/
def personUsername (pm : List (String × PyVal)) : PyVal :=
  orV (dGet pm "username") (orV (dGet pm "user_username") (PyVal.str ""))

/-- `format_oncall_person` (schedule_formatters.py lines 10-31): "Unknown"
with no username for a falsy argument, AttributeError for a truthy
non-dict, otherwise the resolved name with an optional `(@username)`. -/
def formatOncallPerson (person : PyVal) : Except PyErr String :=
  if !truthy person then Except.ok "👤 Unknown"
  else match person with
    | PyVal.dict pm =>
      let name := personName pm
      let username := personUsername pm
      Except.ok (if truthy username then
        "👤 " ++ pyStr name ++ " (@" ++ pyStr username ++ ")"
      else "👤 " ++ pyStr name)
    | _ => Except.error (PyErr.attributeError "object has no attribute get")

/-- Start-alias resolution of `format_shift` (lines 45-51):
`start`, `start_time`, `shift_start`, `shift_start_time`, else `""`. -/
def formatShiftStart (m : List (String × PyVal)) : PyVal :=
  orV (dGet m "start") (orV (dGet m "start_time") (orV (dGet m "shift_start")
    (orV (dGet m "shift_start_time") (PyVal.str ""))))

/-- End-alias resolution of `format_shift` (lines 52-58):
`end`, `end_time`, `shift_end`, `shift_end_time`, else `""`. -/
def formatShiftEnd (m : List (String × PyVal)) : PyVal :=
  orV (dGet m "end") (orV (dGet m "end_time") (orV (dGet m "shift_end")
    (orV (dGet m "shift_end_time") (PyVal.str ""))))

/-- Start-alias resolution of `format_oncall_list` (lines 157-162):
`start`, `start_time`, `shift_start`, else `""` (no fourth alias here). -/
def oncallListStart (m : List (String × PyVal)) : PyVal :=
  orV (dGet m "start") (orV (dGet m "start_time") (orV (dGet m "shift_start")
    (PyVal.str "")))

/-- Start-alias resolution of `format_oncall_day_summary` (lines 229-234):
`shift_start`, `start`, `start_time`, else `""`. -/
def daySummaryStart (m : List (String × PyVal)) : PyVal :=
  orV (dGet m "shift_start") (orV (dGet m "start") (orV (dGet m "start_time")
    (PyVal.str "")))

/-- End-alias resolution of `format_oncall_day_summary` (lines 235-240):
`shift_end`, `end`, `end_time`, else `""`. -/
def daySummaryEnd (m : List (String × PyVal)) : PyVal :=
  orV (dGet m "shift_end") (orV (dGet m "end") (orV (dGet m "end_time")
    (PyVal.str "")))

/-- The user dict built by `format_current_oncall` (lines 105-109) and
`format_oncall_list` (lines 149-153): the nested `user` when truthy, else a
synthetic dict from the flat sibling fields. -/
def currentOncallUser (m : List (String × PyVal)) : PyVal :=
  orV (dGet m "user") (PyVal.dict
    [("user_username", dGet m "user_username"),
      ("user_email", dGet m "user_email"),
      ("name", orV (dGet m "user_email") (dGet m "user_username"))])

/-- `_name` inside `format_oncall_day_summary` (lines 202-212):
`user.get("name") or shift.get("user_username") or shift.get("user_email")
or user.get("user_username") or user.get("user_email") or "Unknown"`, with
`user = shift.get("user") or {}` (AttributeError if that is a truthy
non-dict). -/
def daySummaryName (m : List (String × PyVal)) : Except PyErr PyVal :=
  match orV (dGet m "user") (PyVal.dict []) with
  | PyVal.dict um =>
    Except.ok (orV (dGet um "name") (orV (dGet m "user_username")
      (orV (dGet m "user_email") (orV (dGet um "user_username")
        (orV (dGet um "user_email") (PyVal.str "Unknown"))))))
  | _ => Except.error (PyErr.attributeError "object has no attribute get")

/-! ## Shift-range endpoint (src/app/main.py, `get_oncall_shifts_http`) -/

/-- `v[:10]`: list and string slices; TypeError on unsubscriptable values. -/
def pySlice10 (v : PyVal) : Except PyErr PyVal :=
  match v with
  | PyVal.list l => Except.ok (PyVal.list (l.take 10))
  | PyVal.str s => Except.ok (PyVal.str (String.mk (s.data.take 10)))
  | _ => Except.error (PyErr.typeError "object is not subscriptable")

/-- The JSON response of the shift-range endpoint. -/
inductive ShiftsResp where
  | badRequest : ShiftsResp
  | internalError : ShiftsResp
  | ok : (scheduleName teamId : PyVal) → (shiftsCount : Nat) → (shifts : PyVal) →
      (sentToChat : Bool) → ShiftsResp

def ShiftsResp.status : ShiftsResp → Nat
  | ShiftsResp.badRequest => 400
  | ShiftsResp.internalError => 500
  | ShiftsResp.ok _ _ _ _ _ => 200

/-- The body of `get_oncall_shifts_http` inside its `try` (main.py lines
312-350).  `scheduleInfo` and `shiftsData` are the two upstream fetch
results; `sendAction` is the external day-summary-rendering-and-send step,
executed only when a destination was resolved.  The final response dict
evaluates `target_chat_id` when `send_to_chat` is true; if the send block
did not run, that name is unbound and raises. -/
def shiftsCore (cfg : List (String × String)) (fb : Option String)
    (sendAction : Except PyErr Bool) (scheduleInfo shiftsData : PyVal)
    (sendToChat : Bool) : Except PyErr ShiftsResp := do
  let scheduleName ← pyGetD scheduleInfo "name" (PyVal.str "Unknown")
  let teamId ← pyGet scheduleInfo "team_id"
  let shifts : PyVal :=
    match shiftsData with
    | PyVal.dict dm =>
      if (pyLookup dm "results").isSome then dGet dm "results"
      else if (pyLookup dm "shifts").isSome then dGetD dm "shifts" (PyVal.list [])
      else PyVal.list []
    | PyVal.list l => PyVal.list l
    | _ => PyVal.list []
  let boundTarget : Option (Option String) ←
    if sendToChat && truthy shifts then do
      let eventData : PyVal :=
        if truthy teamId then PyVal.dict [("team_id", teamId)] else PyVal.dict []
      let target ← getChatId cfg fb eventData
      if (match target with | some t => t != "" | Option.none => false) then do
        let _ ← sendAction
        pure (some target)
      else pure (some target)
    else pure Option.none
  let shiftsCount ← pyLen shifts
  let shiftsOut ← pySlice10 shifts
  let sentToChat ←
    if sendToChat then
      match boundTarget with
      | some tgt =>
        pure (match tgt with
          | some s => s ≠ ""
          | Option.none => false)
      | Option.none =>
        Except.error (PyErr.unboundLocal "local variable target_chat_id referenced before assignment")
    else pure false
  pure (ShiftsResp.ok scheduleName teamId shiftsCount shiftsOut sentToChat)

/-- `get_oncall_shifts_http` (main.py lines 278-356): 400 on a falsy
schedule_id, otherwise the core with its catch-all mapping any exception to
a 500 internal error. -/
def getOncallShiftsHttp (cfg : List (String × String)) (fb : Option String)
    (sendAction : Except PyErr Bool) (scheduleInfo shiftsData : PyVal)
    (scheduleId : String) (sendToChat : Bool) : ShiftsResp :=
  if scheduleId = "" then ShiftsResp.badRequest
  else
    match shiftsCore cfg fb sendAction scheduleInfo shiftsData sendToChat with
    | Except.ok r => r
    | Except.error _ => ShiftsResp.internalError

/-! ## Spec-side definitions used for refinement comparisons -/

/-- Ordered alias lookup as stated by the spec: try the keys in order, the
first truthy value wins, empty string if none does. -/
def firstTruthy (m : List (String × PyVal)) : List String → PyVal
  | [] => PyVal.str ""
  | k :: ks => if truthy (dGet m k) then dGet m k else firstTruthy m ks

/-- Ordered alias lookup with an explicit default. -/
def firstTruthyD (m : List (String × PyVal)) (ks : List String) (d : PyVal) : PyVal :=
  match ks with
  | [] => d
  | k :: rest => if truthy (dGet m k) then dGet m k else firstTruthyD m rest d

/-- Days from 1970-01-01 of a civil date (Gregorian, proleptic). -/
def daysFromCivil (y m d : Int) : Int :=
  let y2 := if m ≤ 2 then y - 1 else y
  let era := Int.ediv y2 400
  let yoe := y2 - era * 400
  let mp := Int.emod (m + 9) 12
  let doy := Int.ediv (153 * mp + 2) 5 + d - 1
  let doe := yoe * 365 + Int.ediv yoe 4 - Int.ediv yoe 100 + doy
  era * 146097 + doe - 719468

/-- Civil date from days since 1970-01-01. -/
def civilFromDays (z0 : Int) : Int × Int × Int :=
  let z := z0 + 719468
  let era := Int.ediv z 146097
  let doe := z - era * 146097
  let yoe := Int.ediv (doe - Int.ediv doe 1460 + Int.ediv doe 36524 - Int.ediv doe 146096) 365
  let y := yoe + era * 400
  let doy := doe - (365 * yoe + Int.ediv yoe 4 - Int.ediv yoe 100)
  let mp := Int.ediv (5 * doy + 2) 153
  let d := doy - Int.ediv (153 * mp + 2) 5 + 1
  let m := if mp < 10 then mp + 3 else mp - 9
  (if m ≤ 2 then y + 1 else y, m, d)

/-- Modelled from the spec: the timestamp rendering the spec describes —
`HH:MM:SS DD.MM.YY` converted to the configured local timezone (given here
as a UTC offset in minutes) when the parsed timestamp carries an offset of
its own; raw string on parse failure.  Used only to compare against the
source-derived `fmtTsStr`. -/
def fmtTsSpecTZ (tzOffsetMin : Int) (s : String) : String :=
  match pyFromIso (replZ s) with
  | some dt =>
    match dt.offsetMin with
    | some src =>
      let em : Int := daysFromCivil (Int.ofNat dt.year) (Int.ofNat dt.month) (Int.ofNat dt.day) * 1440
        + Int.ofNat dt.hour * 60 + Int.ofNat dt.minute + (tzOffsetMin - src)
      let days := Int.ediv em 1440
      let rem := (Int.emod em 1440).toNat
      let ymd := civilFromDays days
      strftimeHMS ⟨ymd.1.toNat, ymd.2.1.toNat, ymd.2.2.toNat, rem / 60, rem % 60,
        dt.second, some tzOffsetMin⟩
    | Option.none => strftimeHMS dt
  | Option.none => s

/-- A line carrying the `Start: ` prefix. -/
def isStartLine (l : String) : Bool :=
  lPre "Start: ".data l.data

/-- A line carrying the `Resolve: ` prefix. -/
def isResolveLine (l : String) : Bool :=
  lPre "Resolve: ".data l.data

/-- Number of lines carrying the `Start: ` prefix. -/
def startCount (ls : List String) : Nat :=
  ls.countP isStartLine

/-- Number of lines carrying the `Resolve: ` prefix. -/
def resolveCount (ls : List String) : Nat :=
  ls.countP isResolveLine

/-- A key being absent or mapped to a dict (so that `.get(k, {})` followed by
an attribute access cannot raise). -/
def fieldOkAt (m : List (String × PyVal)) (k : String) : Bool :=
  match pyLookup m k with
  | some (PyVal.dict _) => true
  | some _ => false
  | Option.none => true

/-! ## Concrete inputs used by witnesses and counterexamples -/

/-- A syntactically valid destination UUID. -/
def validU : String := "11111111-1111-1111-1111-111111111111"

/-- Formatter settings with no base URL configured. -/
def noUrlSettings : FmtSettings := ⟨Option.none, Option.none⟩

/-- Payload whose routing resolves (via fallback) to a valid UUID but whose
`event` field is JSON null, so the handler raises before reaching 202. -/
def c1payload : PyVal :=
  PyVal.dict [("alert_group", PyVal.dict [("id", PyVal.int 1)]), ("event", PyVal.none)]

/-- Payload carrying a truthy but unhashable `alert_group.team_id`. -/
def c3bad : PyVal :=
  PyVal.dict [("alert_group", PyVal.dict [("team_id", PyVal.dict [("x", PyVal.int 1)])])]

/-- Payload whose formatter run fails internally: `alert_group` is a string,
so the very first attribute access on it raises. -/
def c4bad : PyVal :=
  PyVal.dict [("alert_group", PyVal.str "boom")]

/-- Escalation event with no `created_at` and no alerts: no start time is
derivable. -/
def c6payload : PyVal :=
  PyVal.dict [("alert_group", PyVal.dict [("id", PyVal.str "42")]),
    ("event", PyVal.dict [("type", PyVal.str "escalation")])]

/-- Escalation event with a derivable start time, for the C6 witness. -/
def c6wPayload : PyVal :=
  PyVal.dict [("alert_group", PyVal.dict [("id", PyVal.str "42"),
    ("team_id", PyVal.str "T1"), ("created_at", PyVal.str "2025-01-01T10:00:00Z")]),
    ("event", PyVal.dict [("type", PyVal.str "escalation")])]

/-- The formatter context computed from `c6wPayload` under `noUrlSettings`. -/
def c6wCtx : FmtCtx :=
  ⟨"escalation", "escalation", PyVal.str "42", PyVal.str "", PyVal.str "",
    PyVal.str "2025-01-01T10:00:00Z", PyVal.none,
    PyVal.str "2025-01-01T10:00:00Z", PyVal.none,
    PyVal.int 0, PyVal.int 0, PyVal.int 0, [], [], [], PyVal.str "", "", ""⟩

/-- A shift record carrying two distinct start aliases. -/
def c7shift : List (String × PyVal) :=
  [("start", PyVal.str "2025-01-01T09:00:00Z"), ("shift_start", PyVal.str "2025-01-01T21:00:00Z")]

/-- A shift record where the nested user and a flat sibling field disagree. -/
def c8shift : List (String × PyVal) :=
  [("user", PyVal.dict [("user_username", PyVal.str "nested")]),
    ("user_username", PyVal.str "flat")]

/-- Schedule metadata returned by the upstream fetch in the C9 scenario. -/
def c9info : PyVal :=
  PyVal.dict [("name", PyVal.str "sched"), ("team_id", PyVal.str "T1")]

/-- The event-type gate under which the formatter shows a Start line (the
time block is the only source of such lines, proved below). -/
def specStartShown (c : FmtCtx) : Bool :=
  ((c.eventType == "escalation" || c.eventType == "resolve" || c.eventType == "resolved")
      && truthy c.startTime)
    || (c.eventType == "silence" && truthy c.silenceSt)

/-- The event-type gate under which the formatter shows a Resolve line. -/
def specResolveShown (c : FmtCtx) : Bool :=
  ((c.eventType == "resolve" || c.eventType == "resolved") && truthy c.resolvedTime)
    || (c.eventType == "silence" && truthy c.silenceUntil)

/-! ## Theorems -/

theorem truthy_dict_cons (x : String × PyVal) (xs : List (String × PyVal)) :
    truthy (PyVal.dict (x :: xs)) = true := rfl

theorem truthy_dict_nil : truthy (PyVal.dict []) = false := rfl

theorem truthy_pynone : truthy PyVal.none = false := rfl

theorem dGet_nil (k : String) : dGet [] k = PyVal.none := rfl

/-- C7: The claim that all three schedule renderers share one alias order is
false: the day-summary renderer prefers `shift_start` over `start`, so a
shift carrying both aliases renders a different start than `format_shift`
picks. -/
theorem c7_counterexample :
    daySummaryStart c7shift = PyVal.str "2025-01-01T21:00:00Z"
  ∧ formatShiftStart c7shift = PyVal.str "2025-01-01T09:00:00Z"
  ∧ PyVal.str "2025-01-01T21:00:00Z" ≠ PyVal.str "2025-01-01T09:00:00Z" := by
  refine ⟨rfl, rfl, ?_⟩
  intro h
  injection h with h2
  exact absurd h2 (by decide)

/-- C7 (amended): each renderer resolves the shift time window as a
first-non-empty ordered alias lookup, but the alias lists differ:
`format_shift` uses start, start_time, shift_start, shift_start_time
(ends symmetric); `format_oncall_list` uses only the first three start
aliases and renders no end; `format_oncall_day_summary` uses
shift_start, start, start_time (ends symmetric). -/
theorem c7_alias_priority : ∀ m : List (String × PyVal),
    formatShiftStart m = firstTruthy m ["start", "start_time", "shift_start", "shift_start_time"]
  ∧ formatShiftEnd m = firstTruthy m ["end", "end_time", "shift_end", "shift_end_time"]
  ∧ oncallListStart m = firstTruthy m ["start", "start_time", "shift_start"]
  ∧ daySummaryStart m = firstTruthy m ["shift_start", "start", "start_time"]
  ∧ daySummaryEnd m = firstTruthy m ["shift_end", "end", "end_time"] :=
  fun _ => ⟨rfl, rfl, rfl, rfl, rfl⟩

/-- C8: The claim that the nested user fields beat the sibling flat fields in
every renderer is false: in the day summary, a flat `user_username` beats
the nested `user.user_username`, while the current-shift renderer picks the
nested one. -/
theorem c8_counterexample :
    daySummaryName c8shift = Except.ok (PyVal.str "flat")
  ∧ formatOncallPerson (currentOncallUser c8shift) = Except.ok "👤 nested (@nested)"
  ∧ ("flat" : String) ≠ "nested" := ⟨rfl, rfl, by decide⟩

/-- C8 (amended): `format_oncall_person` resolves the name as name,
user_email, user_username, else "Unknown"; the current-shift and list
renderers pass the nested `user` object through unchanged whenever it is
truthy (so nested fields win there); the day-summary `_name` prefers
`user.name`, but then consults the flat sibling fields before the remaining
nested ones. -/
theorem c8_assignee_resolution : ∀ (m um pm : List (String × PyVal)),
    personName pm = firstTruthyD pm ["name", "user_email", "user_username"] (PyVal.str "Unknown")
  ∧ (dGet m "user" = PyVal.dict um → truthy (PyVal.dict um) = true →
      currentOncallUser m = PyVal.dict um)
  ∧ (dGet m "user" = PyVal.dict um → truthy (dGet um "name") = true →
      daySummaryName m = Except.ok (dGet um "name"))
  ∧ (dGet m "user" = PyVal.dict um → truthy (dGet um "name") = false →
      truthy (dGet m "user_username") = true →
      daySummaryName m = Except.ok (dGet m "user_username")) := by
  intro m um pm
  refine ⟨rfl, ?_, ?_, ?_⟩
  · intro h ht
    simp [currentOncallUser, h, orV, ht]
  · intro h ht
    cases um with
    | nil => rw [dGet_nil] at ht; exact absurd ht (by decide)
    | cons x xs =>
      simp [daySummaryName, h, orV, truthy_dict_cons, ht]
  · intro h hn hu
    cases um with
    | nil =>
      simp [daySummaryName, h, orV, truthy_dict_nil, dGet_nil, truthy_pynone, hu]
    | cons x xs =>
      simp [daySummaryName, h, orV, truthy_dict_cons, hn, hu]

/-- C8 witness: concrete instances of the amended resolution rules. -/
theorem c8_witness :
    daySummaryName c8shift = Except.ok (PyVal.str "flat")
  ∧ daySummaryName [("user", PyVal.dict [("name", PyVal.str "N")])] = Except.ok (PyVal.str "N")
  ∧ currentOncallUser c8shift = PyVal.dict [("user_username", PyVal.str "nested")] :=
  ⟨(c8_assignee_resolution c8shift [("user_username", PyVal.str "nested")] []).2.2.2 rfl rfl rfl,
    (c8_assignee_resolution [("user", PyVal.dict [("name", PyVal.str "N")])]
      [("name", PyVal.str "N")] []).2.2.1 rfl rfl,
    (c8_assignee_resolution c8shift [("user_username", PyVal.str "nested")] []).2.1 rfl rfl⟩

/-- C2: team-id extraction follows the strict priority order
alert_group.team_id, top-level team_id, schedule.team_id with the first
truthy value winning; and whenever alert_group.team_id is a non-empty
string mapped by the routing table, `get_chat_id` returns exactly the
mapped channel, whatever the rest of the payload holds. -/
theorem c2_routing : ∀ (cfg : List (String × String)) (fb : Option String)
    (m am : List (String × PyVal)) (t c : String),
    (truthy (agTeamOf m) = true → extractTeamId m = agTeamOf m)
  ∧ (truthy (agTeamOf m) = false → truthy (dGet m "team_id") = true →
      extractTeamId m = dGet m "team_id")
  ∧ (truthy (agTeamOf m) = false → truthy (dGet m "team_id") = false →
      extractTeamId m = schedTeamOf m)
  ∧ (dGet m "alert_group" = PyVal.dict am → dGet am "team_id" = PyVal.str t → t ≠ "" →
      List.lookup t cfg = some c →
      getChatId cfg fb (PyVal.dict m) = Except.ok (some c)) := by
  intro cfg fb m am t c
  refine ⟨?_, ?_, ?_, ?_⟩
  · intro h; simp [extractTeamId, h]
  · intro h1 h2; simp [extractTeamId, h1, h2]
  · intro h1 h2; simp [extractTeamId, h1, h2]
  · intro h1 h2 h3 h4
    have ham : am ≠ [] := by
      intro he
      rw [he, dGet_nil] at h2
      exact PyVal.noConfusion h2
    have hag : agTeamOf m = PyVal.str t := by
      cases am with
      | nil => exact absurd rfl ham
      | cons x xs => simp [agTeamOf, h1, orV, truthy_dict_cons, h2]
    have htr : truthy (agTeamOf m) = true := by
      rw [hag]; simp [truthy, h3]
    have hext : extractTeamId m = PyVal.str t := by
      rw [← hag]; simp [extractTeamId, htr]
    simp [getChatId, hext, truthy, h3, cfgContains, h4]

/-- C2 witness: a payload with both alert_group.team_id and a top-level
team_id routes by the former. -/
theorem c2_witness :
    getChatId [("T1", "c1")] Option.none
      (PyVal.dict [("alert_group", PyVal.dict [("team_id", PyVal.str "T1")]),
        ("team_id", PyVal.str "T2")]) = Except.ok (some "c1") :=
  (c2_routing [("T1", "c1")] Option.none
    [("alert_group", PyVal.dict [("team_id", PyVal.str "T1")]), ("team_id", PyVal.str "T2")]
    [("team_id", PyVal.str "T1")] "T1" "c1").2.2.2 rfl rfl (by decide) rfl

/-- C3: the no-raise half of the claim is false: a truthy unhashable
alert_group.team_id (here a non-empty dict) makes the membership test
`team_id in routing_config` raise TypeError inside `get_chat_id`. -/
theorem c3_counterexample :
    getChatId [] (some "fb") c3bad = Except.error (PyErr.typeError "unhashable type: dict") := rfl

/-- C3 (amended): whenever the extracted team id is hashable, `get_chat_id`
returns without raising, and it returns the configured fallback (None when
unset or empty) both when no team id resolves and when the resolved id is
not a key of the routing table. -/
theorem c3_no_route_fallback : ∀ (cfg : List (String × String)) (fb : Option String)
    (m : List (String × PyVal)),
    pyHashable (extractTeamId m) = true →
    ∃ r, getChatId cfg fb (PyVal.dict m) = Except.ok r
      ∧ (truthy (extractTeamId m) = false → r = fallbackOf fb)
      ∧ (∀ s, extractTeamId m = PyVal.str s → List.lookup s cfg = Option.none →
          r = fallbackOf fb) := by
  intro cfg fb m hh
  cases ht : truthy (extractTeamId m) with
  | false =>
    exact ⟨fallbackOf fb, by simp [getChatId, ht], fun _ => rfl, fun s hs hl => rfl⟩
  | true =>
    cases hx : extractTeamId m with
    | list l => rw [hx] at hh; exact absurd hh (by simp [pyHashable])
    | dict d => rw [hx] at hh; exact absurd hh (by simp [pyHashable])
    | none => rw [hx] at ht; exact absurd ht (by decide)
    | bool b =>
      refine ⟨fallbackOf fb, by simp [getChatId, hx, ht, cfgContains], ?_, ?_⟩
      · intro h; exact absurd h (by decide)
      · intro s hs _; exact PyVal.noConfusion hs
    | int n =>
      refine ⟨fallbackOf fb, by simp [getChatId, hx, ht, cfgContains], ?_, ?_⟩
      · intro h; exact absurd h (by decide)
      · intro s hs _; exact PyVal.noConfusion hs
    | str s =>
      rw [hx] at ht
      cases hl : List.lookup s cfg with
      | none =>
        refine ⟨fallbackOf fb, by simp [getChatId, hx, ht, cfgContains, hl], ?_, ?_⟩
        · intro h; simp [ht] at h
        · intro s2 _ _; rfl
      | some cc =>
        refine ⟨some cc, by simp [getChatId, hx, ht, cfgContains, hl], ?_, ?_⟩
        · intro h
          simp [ht] at h
        · intro s2 hs2 hl2
          injection hs2 with he
          rw [← he] at hl2
          rw [hl] at hl2
          exact Option.noConfusion hl2

/-- C3 witness: no team id anywhere, fallback configured: the fallback is
returned and nothing raises. -/
theorem c3_witness :
    ∃ r, getChatId [("T1", "c1")] (some "fb") (PyVal.dict []) = Except.ok r
      ∧ (truthy (extractTeamId []) = false → r = fallbackOf (some "fb"))
      ∧ (∀ s, extractTeamId [] = PyVal.str s → List.lookup s [("T1", "c1")] = Option.none →
          r = fallbackOf (some "fb")) :=
  c3_no_route_fallback [("T1", "c1")] (some "fb") [] rfl

/-- C10: the handler rejects with 400 "Missing alert_group" whenever the
`alert_group` value is falsy (absent, null, empty dict, empty string or 0),
and the response is computed without consulting the router at all. -/
theorem c10_falsy_alert_group : ∀ (cfg cfg2 : List (String × String))
    (fb fb2 : Option String) (m : List (String × PyVal)),
    truthy (dGet m "alert_group") = false →
    handleOncallWebhook cfg fb (some (PyVal.dict m))
      = ⟨400, [("status", "error"), ("message", "Missing alert_group")], false⟩
  ∧ handleOncallWebhook cfg fb (some (PyVal.dict m))
      = handleOncallWebhook cfg2 fb2 (some (PyVal.dict m)) := by
  intro cfg cfg2 fb fb2 m h
  constructor
  · simp [handleOncallWebhook, h]
  · simp [handleOncallWebhook, h]

/-- C10 witness: the payload with an empty alert_group object is refused
identically under two different router configurations. -/
theorem c10_witness :
    handleOncallWebhook [("T1", validU)] (some validU)
        (some (PyVal.dict [("alert_group", PyVal.dict [])]))
      = ⟨400, [("status", "error"), ("message", "Missing alert_group")], false⟩
  ∧ handleOncallWebhook [("T1", validU)] (some validU)
        (some (PyVal.dict [("alert_group", PyVal.dict [])]))
      = handleOncallWebhook [] Option.none
        (some (PyVal.dict [("alert_group", PyVal.dict [])])) :=
  c10_falsy_alert_group [("T1", validU)] [] (some validU) Option.none
    [("alert_group", PyVal.dict [])] rfl

/-- C9: with `send_to_chat=true` and zero upstream shifts, the response dict
reads the local `target_chat_id` that was never assigned (the send block is
skipped on empty shifts), so the endpoint raises UnboundLocalError and the
catch-all answers 500 — not the promised zero-count success.  With
`send_to_chat=false` the same empty result does produce 200 with a zero
count, and a 12-shift result is truncated to 10 with the full count. -/
theorem c9_unbound_target :
    getOncallShiftsHttp [] Option.none (Except.ok true) c9info (PyVal.list []) "SBRN" true
      = ShiftsResp.internalError
  ∧ getOncallShiftsHttp [] Option.none (Except.ok true) c9info (PyVal.list []) "SBRN" false
      = ShiftsResp.ok (PyVal.str "sched") (PyVal.str "T1") 0 (PyVal.list []) false
  ∧ getOncallShiftsHttp [] Option.none (Except.ok true) c9info
      (PyVal.list (List.replicate 12 (PyVal.dict []))) "SBRN" false
      = ShiftsResp.ok (PyVal.str "sched") (PyVal.str "T1") 12
        (PyVal.list (List.replicate 10 (PyVal.dict []))) false :=
  ⟨rfl, rfl, rfl⟩

/-- C5: the claim that timestamps are converted to the configured local
timezone is false: `_fmt_ts` renders the wall clock of the source string
itself.  A UTC timestamp under a UTC+3 local timezone renders 03:04:05,
while the conversion the spec describes gives 06:04:05. -/
theorem c5_counterexample :
    fmtTsStr "2024-01-02T03:04:05Z" = "03:04:05 02.01.24"
  ∧ fmtTsSpecTZ 180 "2024-01-02T03:04:05Z" = "06:04:05 02.01.24"
  ∧ ("03:04:05 02.01.24" : String) ≠ "06:04:05 02.01.24" := ⟨rfl, rfl, by decide⟩

/-- C5 (amended): every rendered timestamp is `HH:MM:SS DD.MM.YY` of the
parsed wall clock with the carried offset ignored entirely (no timezone
conversion), the raw string is returned unchanged on parse failure, and the
function is total. -/
theorem c5_wall_clock : ∀ (s : String) (d : PyDateTime) (o : Option Int),
    strftimeHMS { d with offsetMin := o } = strftimeHMS d
  ∧ ((∃ dt, pyFromIso (replZ s) = some dt ∧ fmtTsStr s = strftimeHMS dt)
      ∨ (pyFromIso (replZ s) = Option.none ∧ fmtTsStr s = s)) := by
  intro s d o
  constructor
  · rfl
  · cases h : pyFromIso (replZ s) with
    | some dt => exact Or.inl ⟨dt, rfl, by simp [fmtTsStr, h]⟩
    | none => exact Or.inr ⟨rfl, by simp [fmtTsStr, h]⟩

/-- C4: the formatter boundary is total: for every payload,
`parse_oncall_event` either returns the formatted message or, when the
formatter raises internally, the explanatory placeholder string; a payload
with a non-object alert_group concretely degrades to the placeholder. -/
theorem c4_render_total : ∀ (st : FmtSettings) (p : PyVal),
    ((∃ s, formatOncallWebhookMessage st p = Except.ok s ∧ parseOncallEvent st p = s)
    ∨ (∃ e, formatOncallWebhookMessage st p = Except.error e
        ∧ parseOncallEvent st p = "❌ Error processing alert: " ++ errText e))
  ∧ parseOncallEvent st c4bad = "❌ Error processing alert: object has no attribute get" := by
  intro st p
  constructor
  · cases h : formatOncallWebhookMessage st p with
    | ok s => exact Or.inl ⟨s, rfl, by simp [parseOncallEvent, h]⟩
    | error e => exact Or.inr ⟨e, rfl, by simp [parseOncallEvent, h]⟩
  · rfl

theorem handlerCore_no_delivery (cfg : List (String × String)) (fb : Option String)
    (m : List (String × PyVal)) :
    ∀ r, handlerCore cfg fb m = Except.ok r →
      (getChatId cfg fb (PyVal.dict m) = Except.ok Option.none →
        r.status = 500 ∧ r.deliverySpawned = false)
    ∧ (∀ cid, getChatId cfg fb (PyVal.dict m) = Except.ok (some cid) →
        validateChatId cid = false → r.status = 500 ∧ r.deliverySpawned = false) := by
  intro r hcore
  unfold handlerCore at hcore
  cases h1 : pyGetD (dGetD m "event" (PyVal.dict [])) "type" (PyVal.str "unknown") with
  | error e => rw [h1] at hcore; simp [Bind.bind, Except.bind] at hcore
  | ok v1 =>
    rw [h1] at hcore
    simp only [Bind.bind, Except.bind] at hcore
    cases h2 : pyGetD (dGetD m "alert_group" (PyVal.dict [])) "id" (PyVal.str "unknown") with
    | error e => rw [h2] at hcore; simp [Except.bind] at hcore
    | ok v2 =>
      rw [h2] at hcore
      simp only [Except.bind] at hcore
      cases h3 : getChatId cfg fb (PyVal.dict m) with
      | error e => rw [h3] at hcore; simp [Except.bind] at hcore
      | ok tgt =>
        rw [h3] at hcore
        simp only [Except.bind] at hcore
        constructor
        · intro hn
          injection hn with he
          subst he
          cases h4 : pyGet (dGetD m "integration" (PyVal.dict [])) "name" with
          | error e => rw [h4] at hcore; simp [Except.bind] at hcore
          | ok v4 =>
            rw [h4] at hcore
            simp only [Except.bind] at hcore
            simp only [pure, Except.pure] at hcore
            injection hcore with he2
            rw [← he2]
            exact ⟨rfl, rfl⟩
        · intro cid hc hv
          injection hc with he
          subst he
          simp [hv, pure, Except.pure] at hcore
          rw [← hcore]
          exact ⟨rfl, rfl⟩

theorem handlerCore_ok_202 (cfg : List (String × String)) (fb : Option String)
    (m am : List (String × PyVal)) (cid : String)
    (ham : dGet m "alert_group" = PyVal.dict am)
    (hev : fieldOkAt m "event" = true) (hig : fieldOkAt m "integration" = true)
    (hgc : getChatId cfg fb (PyVal.dict m) = Except.ok (some cid))
    (hv : validateChatId cid = true) :
    handlerCore cfg fb m
      = Except.ok ⟨202, [("status", "accepted"), ("message", "Event is being processed")], true⟩ := by
  have hev2 : ∃ em, dGetD m "event" (PyVal.dict []) = PyVal.dict em := by
    unfold fieldOkAt at hev
    cases hp : pyLookup m "event" with
    | none => exact ⟨[], by simp [dGetD, hp]⟩
    | some v =>
      rw [hp] at hev
      cases v with
      | dict em => exact ⟨em, by simp [dGetD, hp]⟩
      | none => simp at hev
      | bool b => simp at hev
      | int n => simp at hev
      | str s => simp at hev
      | list l => simp at hev
  have hig2 : ∃ im, dGetD m "integration" (PyVal.dict []) = PyVal.dict im := by
    unfold fieldOkAt at hig
    cases hp : pyLookup m "integration" with
    | none => exact ⟨[], by simp [dGetD, hp]⟩
    | some v =>
      rw [hp] at hig
      cases v with
      | dict im => exact ⟨im, by simp [dGetD, hp]⟩
      | none => simp at hig
      | bool b => simp at hig
      | int n => simp at hig
      | str s => simp at hig
      | list l => simp at hig
  have hag2 : dGetD m "alert_group" (PyVal.dict []) = PyVal.dict am := by
    unfold dGet at ham
    cases hp : pyLookup m "alert_group" with
    | none => rw [hp] at ham; exact absurd ham (by simp)
    | some v =>
      rw [hp] at ham
      simp at ham
      simp [dGetD, hp, ham]
  obtain ⟨em, hem⟩ := hev2
  obtain ⟨im, him⟩ := hig2
  simp [handlerCore, hem, hag2, him, hgc, hv, pyGetD, pyGet, Bind.bind, Except.bind, pure,
    Except.pure]

/-- C1: the final clause of the claim is false: a payload whose destination
resolves to a valid UUID can still get a 500.  With `"event": null` the
attribute access `event_data.get("event", {}).get("type", "unknown")`
raises, the catch-all answers 500 "internal error", and 202 is never
reached even though routing and validation would succeed. -/
theorem c1_counterexample :
    getChatId [] (some validU) c1payload = Except.ok (some validU)
  ∧ validateChatId validU = true
  ∧ handleOncallWebhook [] (some validU) (some c1payload)
      = ⟨500, [("status", "error"), ("detail", "internal error")], false⟩ :=
  ⟨rfl, by decide, rfl⟩

/-- C1 (amended): undecodable bodies, non-object payloads and falsy
alert_group values get 400; a resolvable-destination failure (router
returns none) or an invalid destination UUID gets 500 with no delivery
task spawned; and 202 with a spawned background task is returned provided
additionally the `event` and `integration` fields are absent-or-objects and
`alert_group` is an object (otherwise the attribute accesses before the
202 raise and the catch-all answers 500). -/
theorem c1_ingest_statuses : ∀ (cfg : List (String × String)) (fb : Option String)
    (m am : List (String × PyVal)) (v : PyVal) (cid : String),
    handleOncallWebhook cfg fb Option.none
      = ⟨400, [("status", "error"), ("detail", "Invalid JSON")], false⟩
  ∧ ((match v with | PyVal.dict _ => false | _ => true) = true →
      handleOncallWebhook cfg fb (some v)
        = ⟨400, [("status", "error"), ("detail", "Invalid payload")], false⟩)
  ∧ (truthy (dGet m "alert_group") = false →
      handleOncallWebhook cfg fb (some (PyVal.dict m))
        = ⟨400, [("status", "error"), ("message", "Missing alert_group")], false⟩)
  ∧ (truthy (dGet m "alert_group") = true →
      getChatId cfg fb (PyVal.dict m) = Except.ok Option.none →
      (handleOncallWebhook cfg fb (some (PyVal.dict m))).status = 500
      ∧ (handleOncallWebhook cfg fb (some (PyVal.dict m))).deliverySpawned = false)
  ∧ (truthy (dGet m "alert_group") = true →
      getChatId cfg fb (PyVal.dict m) = Except.ok (some cid) →
      validateChatId cid = false →
      (handleOncallWebhook cfg fb (some (PyVal.dict m))).status = 500
      ∧ (handleOncallWebhook cfg fb (some (PyVal.dict m))).deliverySpawned = false)
  ∧ (truthy (dGet m "alert_group") = true →
      dGet m "alert_group" = PyVal.dict am →
      fieldOkAt m "event" = true → fieldOkAt m "integration" = true →
      getChatId cfg fb (PyVal.dict m) = Except.ok (some cid) →
      validateChatId cid = true →
      handleOncallWebhook cfg fb (some (PyVal.dict m))
        = ⟨202, [("status", "accepted"), ("message", "Event is being processed")], true⟩) := by
  intro cfg fb m am v cid
  refine ⟨rfl, ?_, ?_, ?_, ?_, ?_⟩
  · intro h
    cases v with
    | dict d => simp at h
    | none => rfl
    | bool b => rfl
    | int n => rfl
    | str s => rfl
    | list l => rfl
  · intro h
    simp [handleOncallWebhook, h]
  · intro h hgc
    cases hc : handlerCore cfg fb m with
    | error e => constructor <;> simp [handleOncallWebhook, h, hc]
    | ok r =>
      have hh := ((handlerCore_no_delivery cfg fb m r hc).1) hgc
      constructor <;> simp [handleOncallWebhook, h, hc, hh.1, hh.2]
  · intro h hgc hv
    cases hc : handlerCore cfg fb m with
    | error e => constructor <;> simp [handleOncallWebhook, h, hc]
    | ok r =>
      have hh := ((handlerCore_no_delivery cfg fb m r hc).2) cid hgc hv
      constructor <;> simp [handleOncallWebhook, h, hc, hh.1, hh.2]
  · intro h ham hev hig hgc hv
    have hcore := handlerCore_ok_202 cfg fb m am cid ham hev hig hgc hv
    simp [handleOncallWebhook, h, hcore]

/-- C1 witness: a well-shaped escalation payload whose team routes to a
valid UUID is accepted with 202 and a spawned delivery task. -/
theorem c1_witness :
    handleOncallWebhook [("T1", validU)] Option.none
      (some (PyVal.dict [("alert_group", PyVal.dict [("team_id", PyVal.str "T1")])]))
      = ⟨202, [("status", "accepted"), ("message", "Event is being processed")], true⟩ :=
  (c1_ingest_statuses [("T1", validU)] Option.none
    [("alert_group", PyVal.dict [("team_id", PyVal.str "T1")])]
    [("team_id", PyVal.str "T1")] PyVal.none validU).2.2.2.2.2
    rfl rfl rfl rfl rfl (by decide)

theorem dataAppend (a b : String) : (a ++ b).data = a.data ++ b.data := by
  cases a; cases b; rfl

theorem head_append (a b : String) (c0 : Char) (cs : List Char) (h : a.data = c0 :: cs) :
    ∃ ds, (a ++ b).data = c0 :: ds :=
  ⟨cs ++ b.data, by rw [dataAppend, h]; rfl⟩

theorem lPre_self (p rest : List Char) : lPre p (p ++ rest) = true := by
  induction p with
  | nil => rfl
  | cons a as ih => simp [lPre, ih]

theorem noStartPre (c : Char) (cs : List Char) (h : c ≠ 'S') :
    lPre "Start: ".data (c :: cs) = false := by
  have hp : "Start: ".data = 'S' :: 't' :: 'a' :: 'r' :: 't' :: ':' :: ' ' :: [] := rfl
  rw [hp]
  simp [lPre, Ne.symm h]

theorem noResolvePre (c : Char) (cs : List Char) (h : c ≠ 'R') :
    lPre "Resolve: ".data (c :: cs) = false := by
  have hp : "Resolve: ".data = 'R' :: 'e' :: 's' :: 'o' :: 'l' :: 'v' :: 'e' :: ':' :: ' ' :: [] := rfl
  rw [hp]
  simp [lPre, Ne.symm h]

theorem noStart_of_data (l : String) (c0 : Char) (cs : List Char) (h : l.data = c0 :: cs)
    (hne : c0 ≠ 'S') : lPre "Start: ".data l.data = false := by
  rw [h]; exact noStartPre c0 cs hne

theorem noResolve_of_data (l : String) (c0 : Char) (cs : List Char) (h : l.data = c0 :: cs)
    (hne : c0 ≠ 'R') : lPre "Resolve: ".data l.data = false := by
  rw [h]; exact noResolvePre c0 cs hne

theorem startLinePre (x : String) : lPre "Start: ".data ("Start: " ++ x).data = true := by
  rw [dataAppend]; exact lPre_self _ _

theorem resolveLinePre (x : String) : lPre "Resolve: ".data ("Resolve: " ++ x).data = true := by
  rw [dataAppend]; exact lPre_self _ _

theorem noStart_resolveLine (x : String) : lPre "Start: ".data ("Resolve: " ++ x).data = false := by
  cases x; rfl

theorem noResolve_startLine (x : String) : lPre "Resolve: ".data ("Start: " ++ x).data = false := by
  cases x; rfl

theorem noStart_status (x : String) : lPre "Start: ".data ("Status: " ++ x).data = false := by
  cases x; rfl

theorem noResolve_status (x : String) : lPre "Resolve: ".data ("Status: " ++ x).data = false := by
  cases x; rfl

/-- Both line prefixes fail on any line whose head character is neither S
nor R. -/
theorem noSR_of_data (l : String) (c0 : Char) (cs : List Char) (h : l.data = c0 :: cs)
    (h1 : c0 ≠ 'S') (h2 : c0 ≠ 'R') :
    lPre "Start: ".data l.data = false ∧ lPre "Resolve: ".data l.data = false :=
  ⟨noStart_of_data l c0 cs h h1, noResolve_of_data l c0 cs h h2⟩

theorem statusMapF_fst (k : String) (p : String × String) (h : statusMapF k = some p) :
    p.1 = "🚨" ∨ p.1 = "🟡" ∨ p.1 = "⚪️" ∨ p.1 = "🔴" ∨ p.1 = "🟢" ∨ p.1 = "🔕"
  ∨ p.1 = "🔔" := by
  unfold statusMapF at h
  split_ifs at h
  all_goals
    first
      | (injection h with h2; rw [← h2]; simp)
      | exact Option.noConfusion h

theorem statusPair_fst (et s : String) :
    (statusPair et s).1 = "🚨" ∨ (statusPair et s).1 = "🟡" ∨ (statusPair et s).1 = "⚪️"
  ∨ (statusPair et s).1 = "🔴" ∨ (statusPair et s).1 = "🟢" ∨ (statusPair et s).1 = "🔕"
  ∨ (statusPair et s).1 = "🔔" ∨ (statusPair et s).1 = "❓" := by
  unfold statusPair
  cases h1 : statusMapF et with
  | some p =>
    simp only [h1]
    have := statusMapF_fst et p h1
    tauto
  | none =>
    cases h2 : statusMapF s with
    | some p =>
      simp only [h1, h2]
      have := statusMapF_fst s p h2
      tauto
    | none =>
      simp only [h1, h2]
      tauto

theorem emoji_head (e : String)
    (he : e = "🚨" ∨ e = "🟡" ∨ e = "⚪️" ∨ e = "🔴" ∨ e = "🟢" ∨ e = "🔕" ∨ e = "🔔"
      ∨ e = "❓") :
    ∃ c0 cs, e.data = c0 :: cs ∧ c0 ≠ 'S' ∧ c0 ≠ 'R' := by
  rcases he with he|he|he|he|he|he|he|he <;> subst he <;> exact ⟨_, _, rfl, by decide, by decide⟩

/-- The first header line starts with one of the status emojis, so it is
neither a Start nor a Resolve line. -/
theorem noSR_header_of_head (e g t sfx : String) (c0 : Char) (cs : List Char)
    (he : e.data = c0 :: cs) (h1 : c0 ≠ 'S') (h2 : c0 ≠ 'R') :
    lPre "Start: ".data (e ++ " #" ++ g ++ " - " ++ t ++ sfx).data = false
  ∧ lPre "Resolve: ".data (e ++ " #" ++ g ++ " - " ++ t ++ sfx).data = false := by
  obtain ⟨d1, hh1⟩ := head_append e " #" c0 cs he
  obtain ⟨d2, hh2⟩ := head_append _ g c0 d1 hh1
  obtain ⟨d3, hh3⟩ := head_append _ " - " c0 d2 hh2
  obtain ⟨d4, hh4⟩ := head_append _ t c0 d3 hh3
  obtain ⟨d5, hh5⟩ := head_append _ sfx c0 d4 hh4
  exact noSR_of_data _ c0 d5 hh5 h1 h2

/-- Both prefix predicates, bundled: no Start line and no Resolve line. -/
def notSR (l : String) : Prop :=
  isStartLine l = false ∧ isResolveLine l = false

theorem notSR_of_data (l : String) (c0 : Char) (cs : List Char) (h : l.data = c0 :: cs)
    (h1 : c0 ≠ 'S') (h2 : c0 ≠ 'R') : notSR l :=
  ⟨noStart_of_data l c0 cs h h1, noResolve_of_data l c0 cs h h2⟩

theorem counts_zero_of_notSR (ls : List String) (h : ∀ l ∈ ls, notSR l) :
    startCount ls = 0 ∧ resolveCount ls = 0 := by
  constructor
  · exact List.countP_eq_zero.mpr (fun l hl => by simp [(h l hl).1])
  · exact List.countP_eq_zero.mpr (fun l hl => by simp [(h l hl).2])

theorem notSR_header1 (e g t sfx : String)
    (he : e = "🚨" ∨ e = "🟡" ∨ e = "⚪️" ∨ e = "🔴" ∨ e = "🟢" ∨ e = "🔕" ∨ e = "🔔"
      ∨ e = "❓") :
    notSR (e ++ " #" ++ g ++ " - " ++ t ++ sfx) := by
  obtain ⟨c0, cs, hd, hS, hR⟩ := emoji_head e he
  obtain ⟨hs1, hr1⟩ := noSR_header_of_head e g t sfx c0 cs hd hS hR
  exact ⟨hs1, hr1⟩

theorem notSR_status (x : String) : notSR ("Status: " ++ x) :=
  ⟨noStart_status x, noResolve_status x⟩

theorem header_counts (c : FmtCtx) :
    startCount (headerBlock c) = 0 ∧ resolveCount (headerBlock c) = 0 := by
  apply counts_zero_of_notSR
  intro l hl
  rcases List.mem_cons.mp hl with rfl | hl2
  · exact notSR_header1 _ _ _ _ (statusPair_fst c.eventType c.state)
  · rcases List.mem_cons.mp hl2 with rfl | hl3
    · exact notSR_status _
    · exact absurd hl3 (List.not_mem_nil l)

theorem isStartLine_start (x : String) : isStartLine ("Start: " ++ x) = true :=
  startLinePre x

theorem isStartLine_resolveLine (x : String) : isStartLine ("Resolve: " ++ x) = false :=
  noStart_resolveLine x

theorem isResolveLine_resolve (x : String) : isResolveLine ("Resolve: " ++ x) = true :=
  resolveLinePre x

theorem isResolveLine_startLine (x : String) : isResolveLine ("Start: " ++ x) = false :=
  noResolve_startLine x

theorem notSR_empty : notSR "" := ⟨rfl, rfl⟩

theorem notSR_alerts (a b c : String) :
    notSR ("Alerts in group: " ++ a ++ " | Firing: " ++ b ++ " | Resolved: " ++ c) := by
  obtain ⟨d1, h1⟩ := head_append "Alerts in group: " a 'A'
    "lerts in group: ".data rfl
  obtain ⟨d2, h2⟩ := head_append _ " | Firing: " 'A' d1 h1
  obtain ⟨d3, h3⟩ := head_append _ b 'A' d2 h2
  obtain ⟨d4, h4⟩ := head_append _ " | Resolved: " 'A' d3 h3
  obtain ⟨d5, h5⟩ := head_append _ c 'A' d4 h4
  exact notSR_of_data _ 'A' d5 h5 (by decide) (by decide)

theorem notSR_label (k v : String) : notSR ("  - " ++ k ++ ": " ++ v) := by
  obtain ⟨d1, h1⟩ := head_append "  - " k ' ' " - ".data rfl
  obtain ⟨d2, h2⟩ := head_append _ ": " ' ' d1 h1
  obtain ⟨d3, h3⟩ := head_append _ v ' ' d2 h2
  exact notSR_of_data _ ' ' d3 h3 (by decide) (by decide)

theorem notSR_ann (k v : String) : notSR (" - " ++ k ++ ": \"" ++ v ++ "\"") := by
  obtain ⟨d1, h1⟩ := head_append " - " k ' ' "- ".data rfl
  obtain ⟨d2, h2⟩ := head_append _ ": \"" ' ' d1 h1
  obtain ⟨d3, h3⟩ := head_append _ v ' ' d2 h2
  obtain ⟨d4, h4⟩ := head_append _ "\"" ' ' d3 h3
  exact notSR_of_data _ ' ' d4 h4 (by decide) (by decide)

theorem notSR_byLine (u : String) : notSR ("By: " ++ u) := by
  obtain ⟨d1, h1⟩ := head_append "By: " u 'B' "y: ".data rfl
  exact notSR_of_data _ 'B' d1 h1 (by decide) (by decide)

theorem notSR_link1 (u : String) : notSR ("[View current alert group](" ++ u ++ ")") := by
  obtain ⟨d1, h1⟩ := head_append "[View current alert group](" u '['
    "View current alert group](".data rfl
  obtain ⟨d2, h2⟩ := head_append _ ")" '[' d1 h1
  exact notSR_of_data _ '[' d2 h2 (by decide) (by decide)

theorem notSR_link2 (u : String) : notSR ("[View all alert group](" ++ u ++ ")") := by
  obtain ⟨d1, h1⟩ := head_append "[View all alert group](" u '['
    "View all alert group](".data rfl
  obtain ⟨d2, h2⟩ := head_append _ ")" '[' d1 h1
  exact notSR_of_data _ '[' d2 h2 (by decide) (by decide)

theorem esc_counts (c : FmtCtx) :
    startCount (escBlock c) = 0 ∧ resolveCount (escBlock c) = 0 := by
  apply counts_zero_of_notSR
  intro l hl
  unfold escBlock at hl
  by_cases he : c.eventType = "escalation"
  · rw [if_pos he] at hl
    rcases List.mem_append.mp hl with hl1 | hl2
    · rcases List.mem_append.mp hl1 with hl3 | hl4
      · rcases List.mem_cons.mp hl3 with rfl | h0
        · exact notSR_alerts _ _ _
        · exact absurd h0 (List.not_mem_nil l)
      · by_cases hg : c.groupLabels.isEmpty = true
        · rw [if_pos hg] at hl4; exact absurd hl4 (List.not_mem_nil l)
        · rw [if_neg hg] at hl4
          rcases List.mem_append.mp hl4 with hl5 | hl6
          · rcases List.mem_cons.mp hl5 with rfl | hl7
            · exact notSR_empty
            · rcases List.mem_cons.mp hl7 with rfl | hl8
              · exact ⟨rfl, rfl⟩
              · exact absurd hl8 (List.not_mem_nil l)
          · obtain ⟨kv, _, rfl⟩ := List.mem_map.mp hl6
            exact notSR_label _ _
    · by_cases hg : c.commonLabels.isEmpty = true
      · rw [if_pos hg] at hl2; exact absurd hl2 (List.not_mem_nil l)
      · rw [if_neg hg] at hl2
        rcases List.mem_append.mp hl2 with hl5 | hl6
        · rcases List.mem_cons.mp hl5 with rfl | hl7
          · exact notSR_empty
          · rcases List.mem_cons.mp hl7 with rfl | hl8
            · exact ⟨rfl, rfl⟩
            · exact absurd hl8 (List.not_mem_nil l)
        · obtain ⟨kv, _, rfl⟩ := List.mem_map.mp hl6
          exact notSR_label _ _
  · rw [if_neg he] at hl
    exact absurd hl (List.not_mem_nil l)

theorem ann_counts (c : FmtCtx) :
    startCount (annBlock c) = 0 ∧ resolveCount (annBlock c) = 0 := by
  apply counts_zero_of_notSR
  intro l hl
  unfold annBlock at hl
  by_cases ha : c.anns.isEmpty = true
  · rw [if_pos ha] at hl; exact absurd hl (List.not_mem_nil l)
  · rw [if_neg ha] at hl
    rcases List.mem_cons.mp hl with rfl | hl2
    · exact ⟨rfl, rfl⟩
    · obtain ⟨kv, _, rfl⟩ := List.mem_map.mp hl2
      exact notSR_ann _ _

theorem by_counts (c : FmtCtx) :
    startCount (byBlock c) = 0 ∧ resolveCount (byBlock c) = 0 := by
  apply counts_zero_of_notSR
  intro l hl
  unfold byBlock at hl
  by_cases hb : byEvents.contains c.eventType = true
  · rw [if_pos hb] at hl
    rcases List.mem_cons.mp hl with rfl | hl2
    · exact notSR_empty
    · rcases List.mem_cons.mp hl2 with rfl | hl3
      · exact notSR_byLine _
      · exact absurd hl3 (List.not_mem_nil l)
  · rw [if_neg hb] at hl
    exact absurd hl (List.not_mem_nil l)

theorem tail_counts (c : FmtCtx) :
    startCount (tailBlock c) = 0 ∧ resolveCount (tailBlock c) = 0 := by
  apply counts_zero_of_notSR
  intro l hl
  unfold tailBlock at hl
  rcases List.mem_append.mp hl with hl1 | hl2
  · rcases List.mem_append.mp hl1 with hl3 | hl4
    · rcases List.mem_cons.mp hl3 with rfl | h0
      · exact notSR_empty
      · exact absurd h0 (List.not_mem_nil l)
    · by_cases hc : c.currentUrl ≠ ""
      · rw [if_pos hc] at hl4
        rcases List.mem_cons.mp hl4 with rfl | h0
        · exact notSR_link1 _
        · exact absurd h0 (List.not_mem_nil l)
      · rw [if_neg hc] at hl4; exact absurd hl4 (List.not_mem_nil l)
  · by_cases hc : c.allUrl ≠ ""
    · rw [if_pos hc] at hl2
      rcases List.mem_cons.mp hl2 with rfl | h0
      · exact notSR_link2 _
      · exact absurd h0 (List.not_mem_nil l)
    · rw [if_neg hc] at hl2; exact absurd hl2 (List.not_mem_nil l)

theorem timeBlock_startCount (c : FmtCtx) :
    startCount (timeBlock c) = (if specStartShown c then 1 else 0) := by
  unfold timeBlock specStartShown
  by_cases h1 : c.eventType = "escalation"
  · rw [h1]
    cases hs : truthy c.startTime <;>
      simp [hs, startCount, List.countP_cons, List.countP_nil, isStartLine_start]
  · by_cases h2 : c.eventType = "resolve"
    · rw [h2]
      cases hs : truthy c.startTime <;> cases hr : truthy c.resolvedTime <;>
        simp [hs, hr, startCount, List.countP_append, List.countP_cons, List.countP_nil,
          isStartLine_start, isStartLine_resolveLine]
    · by_cases h3 : c.eventType = "resolved"
      · rw [h3]
        cases hs : truthy c.startTime <;> cases hr : truthy c.resolvedTime <;>
          simp [hs, hr, startCount, List.countP_append, List.countP_cons, List.countP_nil,
            isStartLine_start, isStartLine_resolveLine]
      · by_cases h4 : c.eventType = "silence"
        · rw [h4]
          cases hs : truthy c.silenceSt <;> cases hu : truthy c.silenceUntil <;>
            simp [hs, hu, startCount, List.countP_append, List.countP_cons, List.countP_nil,
              isStartLine_start, isStartLine_resolveLine]
        · simp [h1, h2, h3, h4, startCount, List.countP_nil, beq_iff_eq]

theorem timeBlock_resolveCount (c : FmtCtx) :
    resolveCount (timeBlock c) = (if specResolveShown c then 1 else 0) := by
  unfold timeBlock specResolveShown
  by_cases h1 : c.eventType = "escalation"
  · rw [h1]
    cases hs : truthy c.startTime <;>
      simp [hs, resolveCount, List.countP_cons, List.countP_nil, isResolveLine_startLine]
  · by_cases h2 : c.eventType = "resolve"
    · rw [h2]
      cases hs : truthy c.startTime <;> cases hr : truthy c.resolvedTime <;>
        simp [hs, hr, resolveCount, List.countP_append, List.countP_cons, List.countP_nil,
          isResolveLine_resolve, isResolveLine_startLine]
    · by_cases h3 : c.eventType = "resolved"
      · rw [h3]
        cases hs : truthy c.startTime <;> cases hr : truthy c.resolvedTime <;>
          simp [hs, hr, resolveCount, List.countP_append, List.countP_cons, List.countP_nil,
            isResolveLine_resolve, isResolveLine_startLine]
      · by_cases h4 : c.eventType = "silence"
        · rw [h4]
          cases hs : truthy c.silenceSt <;> cases hu : truthy c.silenceUntil <;>
            simp [hs, hu, resolveCount, List.countP_append, List.countP_cons, List.countP_nil,
              isResolveLine_resolve, isResolveLine_startLine]
        · simp [h1, h2, h3, h4, resolveCount, List.countP_nil, beq_iff_eq]

theorem buildLines_counts (c : FmtCtx) :
    startCount (buildLines c) = startCount (timeBlock c)
  ∧ resolveCount (buildLines c) = resolveCount (timeBlock c) := by
  have hh := header_counts c
  have he := esc_counts c
  have ha := ann_counts c
  have hb := by_counts c
  have ht := tail_counts c
  unfold buildLines
  unfold startCount resolveCount at hh he ha hb ht ⊢
  simp only [List.countP_append]
  omega

/-- C6: the claim that escalation always shows exactly one Start line is
false: an escalation event with no `created_at` and no alerts derives no
start time, and the rendered lines contain no Start line at all. -/
theorem c6_counterexample :
    (mkCtx noUrlSettings c6payload).map (fun c => (c.eventType, startCount (buildLines c)))
      = Except.ok ("escalation", 0) := rfl

/-- C6 (amended): the time block is event-type-gated as claimed, except
that each Start/Resolve line appears only when its gated timestamp is
truthy: the whole message contains exactly one Start line iff the event
type is escalation/resolve/resolved with a truthy derived start time, or
silence with a truthy silence start; exactly one Resolve line iff
resolve/resolved with truthy resolved_at, or silence with truthy
event.until; escalation with a truthy start shows exactly the Start line in
its time block; all other event types have an empty time block. -/
theorem c6_time_gating : ∀ (st : FmtSettings) (p : PyVal) (c : FmtCtx),
    mkCtx st p = Except.ok c →
    formatOncallWebhookMessage st p = Except.ok (String.intercalate "\n" (buildLines c))
  ∧ startCount (buildLines c) = (if specStartShown c then 1 else 0)
  ∧ resolveCount (buildLines c) = (if specResolveShown c then 1 else 0)
  ∧ (c.eventType = "escalation" → truthy c.startTime = true →
      timeBlock c = ["Start: " ++ pyStr (fmtTs c.startTime)])
  ∧ (c.eventType ≠ "escalation" → c.eventType ≠ "resolve" → c.eventType ≠ "resolved" →
      c.eventType ≠ "silence" → timeBlock c = []) := by
  intro st p c h
  refine ⟨?_, ?_, ?_, ?_, ?_⟩
  · unfold formatOncallWebhookMessage
    rw [h]
    rfl
  · rw [(buildLines_counts c).1, timeBlock_startCount c]
  · rw [(buildLines_counts c).2, timeBlock_resolveCount c]
  · intro h1 h2
    unfold timeBlock
    rw [h1]
    simp [h2]
  · intro h1 h2 h3 h4
    unfold timeBlock
    simp [h1, h2, h3, h4]

/-- C6 witness: an escalation payload with a derivable start time shows
exactly one Start line and no Resolve line. -/
theorem c6_witness :
    formatOncallWebhookMessage noUrlSettings c6wPayload
      = Except.ok (String.intercalate "\n" (buildLines c6wCtx))
  ∧ startCount (buildLines c6wCtx) = (if specStartShown c6wCtx then 1 else 0)
  ∧ resolveCount (buildLines c6wCtx) = (if specResolveShown c6wCtx then 1 else 0)
  ∧ (c6wCtx.eventType = "escalation" → truthy c6wCtx.startTime = true →
      timeBlock c6wCtx = ["Start: " ++ pyStr (fmtTs c6wCtx.startTime)])
  ∧ (c6wCtx.eventType ≠ "escalation" → c6wCtx.eventType ≠ "resolve" →
      c6wCtx.eventType ≠ "resolved" → c6wCtx.eventType ≠ "silence" →
      timeBlock c6wCtx = []) :=
  c6_time_gating noUrlSettings c6wPayload c6wCtx rfl
